import Mathlib

/-!
A shallow embedding of pynewb/mp3info's ID3v2.3 event-based decoder
(`mp3_event_parser.py`) and proofs of properties of that embedding.

Byte strings are modelled as `List Nat` (each element a byte value).
Python 2 `str` values, `unicode` values and `bytearray` values stored in
frame dictionaries are modelled by the `PVal` variants below; dictionaries
are association lists in insertion order.  A Python function that can
raise an exception is modelled with an explicit error case; the events a
parse emits (handler callbacks and `stderr` error prints) are collected in
order, and are preserved when an exception escapes.
-/

/-- Exceptions the embedded Python code can raise. -/
inductive PErr : Type
  | indexError
  | structError
  | unicodeDecodeError
  | attributeError
  deriving DecidableEq, Repr

/-- A Python value stored in a frame dictionary: a byte string (`str`),
a unicode string (list of code points), or a `bytearray`. -/
inductive PVal : Type
  | pstr (bs : List Nat)
  | puni (cps : List Nat)
  | pbytes (bs : List Nat)
  deriving DecidableEq, Repr

/-- A handler callback or stderr error print, in emission order.  The
constructors mirror the handler methods of `ID3v2Parser` plus
`__print_error`. -/
inductive Event : Type
  | on_path (path : String)
  | on_raw_id3v2_header (header : List Nat)
  | on_id3v2_header (version revision flags size : Int)
  | on_raw_id3v2dot3_frame_header (frame_header : List Nat)
  | on_id3v2dot3_frame_header (frame_type : List Nat) (frame_size : Nat) (frame_flags : Nat)
  | on_raw_id3v2dot3_frame (frame_type : List Nat) (frame_data : List Nat)
  | on_id3v2dot3_frame (frame_type : List Nat) (frame_dict : List (String × PVal))
  | print_error (msg : String)
  deriving DecidableEq, Repr

/-- Result of running a piece of the embedded code: the events emitted so
far together with either a value or an escaped exception. -/
inductive PRes (α : Type) : Type
  | ok (events : List Event) (v : α)
  | exn (events : List Event) (e : PErr)
  deriving DecidableEq, Repr

/-- The events carried by a result (emitted before a normal return or
before the exception escaped). -/
def PRes.events : PRes α → List Event
  | .ok evs _ => evs
  | .exn evs _ => evs

/-- Prepend already-emitted events to a result. -/
def PRes.withEvents (evs : List Event) : PRes α → PRes α
  | .ok evs2 v => .ok (evs ++ evs2) v
  | .exn evs2 e => .exn (evs ++ evs2) e

/-- Map the value of a result, keeping events and exceptions. -/
def PRes.map (f : α → β) : PRes α → PRes β
  | .ok evs v => .ok evs (f v)
  | .exn evs e => .exn evs e

/-- The byte values of an ASCII string literal, used for Python `str`
literals such as frame type codes. -/
def strBytes (s : String) : List Nat :=
  s.toList.map Char.toNat

/-- Python 2 `struct` format `b`: a byte unpacked as a signed char. -/
def sbyte (b : Nat) : Int :=
  if b < 128 then (b : Int) else (b : Int) - 256

/-- Index of the first 0x00 byte, if any: the scan of `unpack_string`. -/
def findNul : List Nat → Option Nat
  | [] => none
  | b :: rest => if b = 0 then some 0 else (findNul rest).map (· + 1)

/-- `unpack_string` from `mp3_event_parser.py`: scan for the first nul
byte; on success return (index + 1, bytes before the nul); if no nul is
found return (whole length, empty string). -/
def unpack_string (bs : List Nat) : Nat × List Nat :=
  match findNul bs with
  | some i => (i + 1, bs.take i)
  | none => (bs.length, [])

/-- Offset of the first aligned little-endian 0x0000 unit reachable by
the 2-byte-step scan of `unpack_unicode` (which requires two available
bytes at each step), if any. -/
def findNulUnit : List Nat → Option Nat
  | a :: b :: rest => if a = 0 ∧ b = 0 then some 0 else (findNulUnit rest).map (· + 2)
  | _ => none

/-- Pair bytes into little-endian 16-bit units; `none` on odd length
(CPython "truncated data" error). -/
def toUnitsLE : List Nat → Option (List Nat)
  | [] => some []
  | a :: b :: rest => (toUnitsLE rest).map ((a + 256 * b) :: ·)
  | [_] => none

/-- Pair bytes into big-endian 16-bit units; `none` on odd length. -/
def toUnitsBE : List Nat → Option (List Nat)
  | [] => some []
  | a :: b :: rest => (toUnitsBE rest).map ((256 * a + b) :: ·)
  | [_] => none

/-- Combine UTF-16 code units into code points; `none` on an unpaired
surrogate (CPython raises `UnicodeDecodeError`). -/
def combineSurrogates : List Nat → Option (List Nat)
  | [] => some []
  | u :: rest =>
    if 0xD800 ≤ u ∧ u ≤ 0xDBFF then
      match rest with
      | [] => none
      | v :: rest2 =>
        if 0xDC00 ≤ v ∧ v ≤ 0xDFFF then
          (combineSurrogates rest2).map ((0x10000 + (u - 0xD800) * 0x400 + (v - 0xDC00)) :: ·)
        else none
    else if 0xDC00 ≤ u ∧ u ≤ 0xDFFF then none
    else (combineSurrogates rest).map (u :: ·)

/-- Python 2 `bytes.decode('utf-16')`: honour a leading byte-order mark
if present, otherwise assume native (little-endian) order. -/
def utf16_decode (bs : List Nat) : Option (List Nat) :=
  match bs with
  | 0xFE :: 0xFF :: rest => (toUnitsBE rest).bind combineSurrogates
  | 0xFF :: 0xFE :: rest => (toUnitsLE rest).bind combineSurrogates
  | _ => (toUnitsLE bs).bind combineSurrogates

/-- `unpack_unicode` from `mp3_event_parser.py`: scan in 2-byte steps for
a little-endian 0x0000 unit; on success return (offset + 2, utf-16 decode
of the bytes before it), the decode possibly raising; if the scan runs
out of byte pairs return (whole length, empty unicode string). -/
def unpack_unicode (bs : List Nat) : Option (Nat × List Nat) :=
  match findNulUnit bs with
  | some i => (utf16_decode (bs.take i)).map (fun s => (i + 2, s))
  | none => some (bs.length, [])

/-- Big-endian unsigned integer from a list of bytes (`struct` formats
`>I` on 4 bytes and `>H` on 2 bytes). -/
def be_bytes (bs : List Nat) : Nat :=
  bs.foldl (fun a b => a * 256 + b) 0

/-- `ID3v2Parser.parse_apic_frame`: encoding byte, nul-terminated MIME
string, picture-type byte (read, not stored), encoded description,
remaining bytes as picture payload. -/
def parse_apic_frame (d : List Nat) : PRes (List (String × PVal)) :=
  match d[0]? with
  | none => .exn [] .indexError
  | some frame_encoding =>
    let ms := unpack_string (d.drop 1)
    match d[1 + ms.1]? with
    | none => .exn [] .indexError
    | some _picture_type =>
      if frame_encoding = 0 then
        let ds := unpack_string (d.drop (2 + ms.1))
        .ok [] [("mime_type", .pstr ms.2), ("description_string", .pstr ds.2),
                ("picture_data", .pbytes (d.drop (2 + ms.1 + ds.1)))]
      else if frame_encoding = 1 then
        match unpack_unicode (d.drop (2 + ms.1)) with
        | none => .exn [] .unicodeDecodeError
        | some ds =>
          .ok [] [("mime_type", .pstr ms.2), ("description_string", .puni ds.2),
                  ("picture_data", .pbytes (d.drop (2 + ms.1 + ds.1)))]
      else
        .ok [.print_error "Unknown frame encoding"] []

/-- `ID3v2Parser.parse_comm_frame`: signed encoding byte, 3-byte language
code (empty if its first byte is nul), encoded descriptor, remaining
bytes as the comment text. -/
def parse_comm_frame (d : List Nat) : PRes (List (String × PVal)) :=
  if d.length < 4 then .exn [] .structError
  else
    let frame_encoding := sbyte (d.getD 0 0)
    let language : List Nat := if d[1]? = some 0 then [] else (d.drop 1).take 3
    if frame_encoding = 0 then
      let ds := unpack_string (d.drop 4)
      .ok [] [("language", .pstr language), ("descriptor_string", .pstr ds.2),
              ("comment_string", .pstr (d.drop (4 + ds.1)))]
    else if frame_encoding = 1 then
      match unpack_unicode (d.drop 4) with
      | none => .exn [] .unicodeDecodeError
      | some ds =>
        match utf16_decode (d.drop (4 + ds.1)) with
        | none => .exn [] .unicodeDecodeError
        | some comment =>
          .ok [] [("language", .pstr language), ("descriptor_string", .puni ds.2),
                  ("comment_string", .puni comment)]
    else
      .ok [.print_error "Unknown frame encoding"] []

/-- `ID3v2Parser.parse_geob_frame`: encoding byte, nul-terminated MIME
string, encoded description, encoded filename, remaining bytes as opaque
payload. -/
def parse_geob_frame (d : List Nat) : PRes (List (String × PVal)) :=
  match d[0]? with
  | none => .exn [] .indexError
  | some frame_encoding =>
    let ms := unpack_string (d.drop 1)
    if frame_encoding = 0 then
      let ds := unpack_string (d.drop (1 + ms.1))
      let fs := unpack_string (d.drop (1 + ms.1 + ds.1))
      .ok [] [("mime_type", .pstr ms.2), ("description_string", .pstr ds.2),
              ("filename_string", .pstr fs.2),
              ("binary_data", .pbytes (d.drop (1 + ms.1 + ds.1 + fs.1)))]
    else if frame_encoding = 1 then
      match unpack_unicode (d.drop (1 + ms.1)) with
      | none => .exn [] .unicodeDecodeError
      | some ds =>
        match unpack_unicode (d.drop (1 + ms.1 + ds.1)) with
        | none => .exn [] .unicodeDecodeError
        | some fs =>
          .ok [] [("mime_type", .pstr ms.2), ("description_string", .puni ds.2),
                  ("filename_string", .puni fs.2),
                  ("binary_data", .pbytes (d.drop (1 + ms.1 + ds.1 + fs.1)))]
    else
      .ok [.print_error "Unknown frame encoding"] []

/-- `ID3v2Parser.parse_mcdi_frame`: the whole body is opaque payload. -/
def parse_mcdi_frame (d : List Nat) : PRes (List (String × PVal)) :=
  .ok [] [("identifier_data", .pbytes d)]

/-- `ID3v2Parser.parse_priv_frame`: nul-terminated owner string, then
opaque payload. -/
def parse_priv_frame (d : List Nat) : PRes (List (String × PVal)) :=
  let os := unpack_string d
  .ok [] [("owner_string", .pstr os.2), ("private_data", .pbytes (d.drop os.1))]

/-- `ID3v2Parser.parse_text_info_frame`: encoding byte, then the rest of
the body as one string (encoding 1 decodes the rest as utf-16, any
trailing terminator included). -/
def parse_text_info_frame (d : List Nat) : PRes (List (String × PVal)) :=
  match d[0]? with
  | none => .exn [] .indexError
  | some frame_encoding =>
    if frame_encoding = 0 then
      .ok [] [("frame_string", .pstr (d.drop 1))]
    else if frame_encoding = 1 then
      match utf16_decode (d.drop 1) with
      | none => .exn [] .unicodeDecodeError
      | some s => .ok [] [("frame_string", .puni s)]
    else
      .ok [.print_error "Unknown frame encoding"] []

/-- `ID3v2Parser.parse_uslt_frame`: same layout as a comment frame, with
the trailing text stored as lyrics. -/
def parse_uslt_frame (d : List Nat) : PRes (List (String × PVal)) :=
  if d.length < 4 then .exn [] .structError
  else
    let frame_encoding := sbyte (d.getD 0 0)
    let language : List Nat := if d[1]? = some 0 then [] else (d.drop 1).take 3
    if frame_encoding = 0 then
      let ds := unpack_string (d.drop 4)
      .ok [] [("language", .pstr language), ("descriptor_string", .pstr ds.2),
              ("lyrics_string", .pstr (d.drop (4 + ds.1)))]
    else if frame_encoding = 1 then
      match unpack_unicode (d.drop 4) with
      | none => .exn [] .unicodeDecodeError
      | some ds =>
        match utf16_decode (d.drop (4 + ds.1)) with
        | none => .exn [] .unicodeDecodeError
        | some lyrics =>
          .ok [] [("language", .pstr language), ("descriptor_string", .puni ds.2),
                  ("lyrics_string", .puni lyrics)]
    else
      .ok [.print_error "Unknown frame encoding"] []

/-- After a known-type branch of `parse_id3v2dot3_frame_data` produces a
frame dictionary, the handler's `on_id3v2dot3_frame` is invoked with it. -/
def emit_frame_record (frame_type : List Nat) : PRes (List (String × PVal)) → PRes Unit
  | .ok evs dict => .ok (evs ++ [.on_id3v2dot3_frame frame_type dict]) ()
  | .exn evs e => .exn evs e

/-- `ID3v2Parser.parse_id3v2dot3_frame_data`: dispatch on the 4-byte
frame type; for a supported type decode the body and hand the dictionary
to the handler; for an unknown type print a diagnostic and return
without a record event. -/
def parse_id3v2dot3_frame_data (frame_type : List Nat) (frame_data : List Nat) : PRes Unit :=
  if frame_type = strBytes "APIC" then emit_frame_record frame_type (parse_apic_frame frame_data)
  else if frame_type = strBytes "COMM" then emit_frame_record frame_type (parse_comm_frame frame_data)
  else if frame_type = strBytes "GEOB" then emit_frame_record frame_type (parse_geob_frame frame_data)
  else if frame_type = strBytes "MCDI" then emit_frame_record frame_type (parse_mcdi_frame frame_data)
  else if frame_type = strBytes "PRIV" then emit_frame_record frame_type (parse_priv_frame frame_data)
  else if frame_type = strBytes "TALB" then emit_frame_record frame_type (parse_text_info_frame frame_data)
  else if frame_type = strBytes "TBPM" then emit_frame_record frame_type (parse_text_info_frame frame_data)
  else if frame_type = strBytes "TCOM" then emit_frame_record frame_type (parse_text_info_frame frame_data)
  else if frame_type = strBytes "TCON" then emit_frame_record frame_type (parse_text_info_frame frame_data)
  else if frame_type = strBytes "TCOP" then emit_frame_record frame_type (parse_text_info_frame frame_data)
  else if frame_type = strBytes "TENC" then emit_frame_record frame_type (parse_text_info_frame frame_data)
  else if frame_type = strBytes "TFLT" then emit_frame_record frame_type (parse_text_info_frame frame_data)
  else if frame_type = strBytes "TIT1" then emit_frame_record frame_type (parse_text_info_frame frame_data)
  else if frame_type = strBytes "TIT2" then emit_frame_record frame_type (parse_text_info_frame frame_data)
  else if frame_type = strBytes "TIT3" then emit_frame_record frame_type (parse_text_info_frame frame_data)
  else if frame_type = strBytes "TLEN" then emit_frame_record frame_type (parse_text_info_frame frame_data)
  else if frame_type = strBytes "TPE1" then emit_frame_record frame_type (parse_text_info_frame frame_data)
  else if frame_type = strBytes "TPE2" then emit_frame_record frame_type (parse_text_info_frame frame_data)
  else if frame_type = strBytes "TPE3" then emit_frame_record frame_type (parse_text_info_frame frame_data)
  else if frame_type = strBytes "TPOS" then emit_frame_record frame_type (parse_text_info_frame frame_data)
  else if frame_type = strBytes "TPUB" then emit_frame_record frame_type (parse_text_info_frame frame_data)
  else if frame_type = strBytes "TRCK" then emit_frame_record frame_type (parse_text_info_frame frame_data)
  else if frame_type = strBytes "TXXX" then emit_frame_record frame_type (parse_text_info_frame frame_data)
  else if frame_type = strBytes "TYER" then emit_frame_record frame_type (parse_text_info_frame frame_data)
  else if frame_type = strBytes "USLT" then emit_frame_record frame_type (parse_uslt_frame frame_data)
  else .ok [.print_error "Do not know frame type"] ()

/-- `ID3v2Parser.parse_id3v2dot3_frame`: one step of frame iteration over
the file bytes `data` at read offset `pos` with tag extent
`extent = declared size + 10`.  Returns whether iteration continues and
the new read offset.  A read of `n` bytes yields the available prefix
and advances the offset by at most the file length. -/
def parse_id3v2dot3_frame (data : List Nat) (pos : Nat) (extent : Int) : PRes (Bool × Nat) :=
  if (pos : Int) + 10 ≥ extent then .ok [] (false, pos)
  else
    let frame_header := (data.drop pos).take 10
    let pos1 := min (pos + 10) data.length
    let evs := [Event.on_raw_id3v2dot3_frame_header frame_header]
    if frame_header.length ≠ 10 then
      .ok (evs ++ [.print_error "Frame header not 10 bytes"]) (false, pos1)
    else
      let frame_type := frame_header.take 4
      let frame_size := be_bytes ((frame_header.drop 4).take 4)
      let frame_flags := be_bytes (frame_header.drop 8)
      if frame_type = [0, 0, 0, 0] then .ok evs (false, pos1)
      else if frame_size = 0 then .ok evs (false, pos1)
      else
        let evs2 := evs ++ [Event.on_id3v2dot3_frame_header frame_type frame_size frame_flags]
        let frame_data := (data.drop pos1).take frame_size
        let pos2 := min (pos1 + frame_size) data.length
        let evs3 := evs2 ++ [Event.on_raw_id3v2dot3_frame frame_type frame_data]
        (parse_id3v2dot3_frame_data frame_type frame_data).withEvents evs3
        |>.map (fun _ => (true, pos2))

/-- The `while self.parse_id3v2dot3_frame(): pass` loop, with fuel (the
enclosing parse always supplies more fuel than the loop can use). -/
def frame_loop (data : List Nat) (extent : Int) : Nat → Nat → PRes Unit
  | 0, _ => .ok [] ()
  | fuel + 1, pos =>
    match parse_id3v2dot3_frame data pos extent with
    | .exn evs e => .exn evs e
    | .ok evs (false, _) => .ok evs ()
    | .ok evs (true, pos2) => (frame_loop data extent fuel pos2).withEvents evs

/-- Validity loop over the four synchsafe size bytes, as signed values:
`size = (size << 7) + byte`, rejecting a byte greater than 127
("Invalid ID3v2 size byte"). -/
def sizeLoop : Int → List Int → Option Int
  | size, [] => some size
  | size, b :: rest => if b > 127 then none else sizeLoop (size * 128 + b) rest

/-- `ID3v2Parser.parse_id3v2_file` on a file whose bytes are `data`
(the `aatpath` option is off; the file handle is implicit): read and
validate the 10-byte tag header, emit the header events and, for major
version 3, iterate frames. -/
def parse_id3v2_file (path : String) (data : List Nat) : PRes Unit :=
  let header := data.take 10
  let evs1 := [Event.on_path path, Event.on_raw_id3v2_header header]
  if header.length ≠ 10 then .ok (evs1 ++ [.print_error "No ID3v2 header"]) ()
  else
    let file_identifier := header.take 3
    let version := sbyte (header.getD 3 0)
    let revision := sbyte (header.getD 4 0)
    let flags := sbyte (header.getD 5 0)
    if file_identifier ≠ strBytes "ID3" then
      .ok (evs1 ++ [.print_error "No ID3v2 identifier"]) ()
    else if version = 255 ∨ revision = 255 then
      .ok (evs1 ++ [.print_error "Invalid ID3v2 version"]) ()
    else
      match sizeLoop 0 [sbyte (header.getD 6 0), sbyte (header.getD 7 0),
                        sbyte (header.getD 8 0), sbyte (header.getD 9 0)] with
      | none => .ok (evs1 ++ [.print_error "Invalid ID3v2 size byte"]) ()
      | some size =>
        let id3v2_size : Int := size + 10
        let evs2 := evs1 ++ [Event.on_id3v2_header version revision flags size]
        if version ≠ 3 then
          .exn evs2 .attributeError
        else
          (frame_loop data id3v2_size (data.length + 1) 10).withEvents evs2

/-- Recognises the parsed-frame-header event (a frame being read). -/
def isFrameHeaderEvent : Event → Bool
  | .on_id3v2dot3_frame_header _ _ _ => true
  | _ => false

/-- Recognises the raw-frame-body event. -/
def isRawFrameEvent : Event → Bool
  | .on_raw_id3v2dot3_frame _ _ => true
  | _ => false

/-- Recognises the structured-record event. -/
def isRecordEvent : Event → Bool
  | .on_id3v2dot3_frame _ _ => true
  | _ => false

/-- Recognises the unknown-frame-type diagnostic. -/
def isUnknownTypeDiag : Event → Bool
  | .print_error msg => msg = "Do not know frame type"
  | _ => false

/-- A result reads no frame: no parsed frame header and no frame body
among its events. -/
def readsNoFrames (r : PRes α) : Prop :=
  r.events.countP isFrameHeaderEvent = 0 ∧ r.events.countP isRawFrameEvent = 0

/-- The 24 frame type codes of the dispatch chain. -/
def knownFrameTypes : List (List Nat) :=
  [strBytes "APIC", strBytes "COMM", strBytes "GEOB", strBytes "MCDI", strBytes "PRIV",
   strBytes "TALB", strBytes "TBPM", strBytes "TCOM", strBytes "TCON", strBytes "TCOP",
   strBytes "TENC", strBytes "TFLT", strBytes "TIT1", strBytes "TIT2", strBytes "TIT3",
   strBytes "TLEN", strBytes "TPE1", strBytes "TPE2", strBytes "TPE3", strBytes "TPOS",
   strBytes "TPUB", strBytes "TRCK", strBytes "TXXX", strBytes "TYER", strBytes "USLT"]

/-- The frame type codes dispatched to `parse_text_info_frame`. -/
def textInfoTypes : List (List Nat) :=
  [strBytes "TALB", strBytes "TBPM", strBytes "TCOM", strBytes "TCON", strBytes "TCOP",
   strBytes "TENC", strBytes "TFLT", strBytes "TIT1", strBytes "TIT2", strBytes "TIT3",
   strBytes "TLEN", strBytes "TPE1", strBytes "TPE2", strBytes "TPE3", strBytes "TPOS",
   strBytes "TPUB", strBytes "TRCK", strBytes "TXXX", strBytes "TYER"]

/-- Position `i` holds the first 0x00 byte of `bs`. -/
def firstZeroAt (bs : List Nat) (i : Nat) : Prop :=
  bs[i]? = some 0 ∧ ∀ j, j < i → bs[j]? ≠ some 0

/-- `bs` holds no 0x00 byte. -/
def noZero (bs : List Nat) : Prop :=
  ∀ j, j < bs.length → bs[j]? ≠ some 0

/-- Even offset `k` holds the first aligned 0x0000 unit of `bs`. -/
def firstNulUnitAt (bs : List Nat) (k : Nat) : Prop :=
  k % 2 = 0 ∧ bs[k]? = some 0 ∧ bs[k + 1]? = some 0 ∧
    ∀ j, j < k → j % 2 = 0 → ¬(bs[j]? = some 0 ∧ bs[j + 1]? = some 0)

/-- No aligned 0x0000 unit occurs before the buffer ends. -/
def noNulUnit (bs : List Nat) : Prop :=
  ∀ j, j < bs.length - 1 → j % 2 = 0 → ¬(bs[j]? = some 0 ∧ bs[j + 1]? = some 0)

instance (bs : List Nat) (i : Nat) : Decidable (firstZeroAt bs i) := by
  unfold firstZeroAt; infer_instance

instance (bs : List Nat) : Decidable (noZero bs) := by
  unfold noZero; infer_instance

instance (bs : List Nat) (k : Nat) : Decidable (firstNulUnitAt bs k) := by
  unfold firstNulUnitAt; infer_instance

instance (bs : List Nat) : Decidable (noNulUnit bs) := by
  unfold noNulUnit; infer_instance

instance (r : PRes α) : Decidable (readsNoFrames r) := by
  unfold readsNoFrames; infer_instance

theorem exists_getElem?_eq_some {l : List Nat} {n : Nat} (h : n < l.length) :
    ∃ x, l[n]? = some x :=
  ⟨l[n], List.getElem?_eq_getElem h⟩

theorem lt_length_of_getElem?_eq_some {l : List Nat} {n x : Nat} (h : l[n]? = some x) :
    n < l.length :=
  (List.getElem?_eq_some.mp h).1

theorem findNul_some_iff (bs : List Nat) : ∀ i, findNul bs = some i ↔ firstZeroAt bs i := by
  induction bs with
  | nil => intro i; simp [findNul, firstZeroAt]
  | cons b t ih =>
    intro i
    by_cases hb : b = 0
    · subst hb
      simp only [findNul, if_pos rfl]
      constructor
      · intro h
        injection h with h
        subst h
        exact ⟨by simp, fun j hj => absurd hj (Nat.not_lt_zero j)⟩
      · rintro ⟨h1, h2⟩
        cases i with
        | zero => rfl
        | succ n =>
          exact absurd (show ((0 : Nat) :: t)[0]? = some 0 by simp) (h2 0 (Nat.succ_pos n))
    · simp only [findNul, if_neg hb]
      constructor
      · intro h
        rw [Option.map_eq_some'] at h
        obtain ⟨a, ha, rfl⟩ := h
        obtain ⟨h1, h2⟩ := (ih a).mp ha
        refine ⟨by simpa using h1, ?_⟩
        intro j hj
        cases j with
        | zero => simpa using hb
        | succ j' =>
          have hj' : j' < a := by omega
          simpa using h2 j' hj'
      · rintro ⟨h1, h2⟩
        cases i with
        | zero =>
          exfalso
          exact hb (by simpa using h1)
        | succ n =>
          have h1' : t[n]? = some 0 := by simpa using h1
          have h2' : ∀ j, j < n → t[j]? ≠ some 0 := fun j hj => by
            simpa using h2 (j + 1) (by omega)
          have ht : findNul t = some n := (ih n).mpr ⟨h1', h2'⟩
          simp [ht]

theorem findNul_none_iff (bs : List Nat) : findNul bs = none ↔ noZero bs := by
  induction bs with
  | nil => simp [findNul, noZero]
  | cons b t ih =>
    by_cases hb : b = 0
    · subst hb
      simp only [findNul, if_pos rfl]
      constructor
      · intro h; exact absurd h (by simp)
      · intro h
        exact absurd (show ((0 : Nat) :: t)[0]? = some 0 by simp)
          (h 0 (by simp))
    · simp only [findNul, if_neg hb, Option.map_eq_none']
      rw [ih]
      constructor
      · intro h j hj
        cases j with
        | zero => simpa using hb
        | succ j' =>
          have : j' < t.length := by simpa using hj
          simpa using h j' this
      · intro h j hj
        have := h (j + 1) (by simpa using hj)
        simpa using this

theorem getElem?_cons_two (a b : Nat) (l : List Nat) (j : Nat) :
    (a :: b :: l)[j + 2]? = l[j]? := by
  rw [show j + 2 = j + 1 + 1 from rfl, List.getElem?_cons_succ, List.getElem?_cons_succ]

theorem findNulUnit_some_iff (bs : List Nat) :
    ∀ k, findNulUnit bs = some k ↔ firstNulUnitAt bs k := by
  induction bs using findNulUnit.induct with
  | case1 a b rest h =>
    intro k
    obtain ⟨rfl, rfl⟩ := h
    have hc00 : (0 : Nat) = 0 ∧ (0 : Nat) = 0 := ⟨rfl, rfl⟩
    simp only [findNulUnit, if_pos hc00]
    constructor
    · intro hk
      injection hk with hk
      subst hk
      exact ⟨rfl, by simp, by simp, fun j hj => absurd hj (Nat.not_lt_zero j)⟩
    · rintro ⟨_, _, _, h4⟩
      cases k with
      | zero => rfl
      | succ n => exact absurd ⟨by simp, by simp⟩ (h4 0 (by omega) rfl)
  | case2 a b rest h ih =>
    intro k
    simp only [findNulUnit, if_neg h]
    rw [Option.map_eq_some']
    constructor
    · rintro ⟨k', hk', rfl⟩
      obtain ⟨e1, e2, e3, e4⟩ := (ih k').mp hk'
      refine ⟨by omega, by rw [getElem?_cons_two]; exact e2,
        by rw [show k' + 2 + 1 = k' + 1 + 2 from rfl, getElem?_cons_two]; exact e3, ?_⟩
      intro j hj hje
      cases j with
      | zero =>
        rintro ⟨hc1, hc2⟩
        simp only [List.getElem?_cons_zero, Option.some.injEq] at hc1
        simp only [List.getElem?_cons_succ, List.getElem?_cons_zero, Option.some.injEq] at hc2
        exact h ⟨hc1, hc2⟩
      | succ j' =>
        cases j' with
        | zero => exact absurd hje (by decide)
        | succ j'' =>
          have := e4 j'' (by omega) (by omega)
          rw [show j'' + 1 + 1 = j'' + 2 from rfl, getElem?_cons_two,
            show j'' + 2 + 1 = j'' + 1 + 2 from rfl, getElem?_cons_two]
          exact this
    · rintro ⟨e1, e2, e3, e4⟩
      cases k with
      | zero =>
        exfalso
        refine h ⟨?_, ?_⟩
        · simpa using e2
        · simpa using e3
      | succ n =>
        cases n with
        | zero => exact absurd e1 (by decide)
        | succ m =>
          refine ⟨m, (ih m).mpr ⟨by omega, ?_, ?_, ?_⟩, rfl⟩
          · rw [show m + 1 + 1 = m + 2 from rfl, getElem?_cons_two] at e2; exact e2
          · rw [show m + 1 + 1 + 1 = m + 1 + 2 from rfl, getElem?_cons_two] at e3; exact e3
          · intro j hj hje
            have := e4 (j + 2) (by omega) (by omega)
            rw [getElem?_cons_two, show j + 2 + 1 = j + 1 + 2 from rfl,
              getElem?_cons_two] at this
            exact this
  | case3 t ht =>
    intro k
    have hnone : findNulUnit t = none := by
      cases t with
      | nil => rfl
      | cons x xs =>
        cases xs with
        | nil => rfl
        | cons y ys => exact absurd rfl (fun hh => ht x y ys hh)
    rw [hnone]
    constructor
    · intro hc; exact absurd hc (by simp)
    · rintro ⟨_, _, h3, _⟩
      exfalso
      have hk1 : k + 1 < t.length := lt_length_of_getElem?_eq_some h3
      cases t with
      | nil => simp at hk1
      | cons x xs =>
        cases xs with
        | nil => simp at hk1
        | cons y ys => exact ht x y ys rfl

theorem findNulUnit_none_iff (bs : List Nat) : findNulUnit bs = none ↔ noNulUnit bs := by
  induction bs using findNulUnit.induct with
  | case1 a b rest h =>
    obtain ⟨rfl, rfl⟩ := h
    have hc00 : (0 : Nat) = 0 ∧ (0 : Nat) = 0 := ⟨rfl, rfl⟩
    simp only [findNulUnit, if_pos hc00]
    constructor
    · intro hc; exact absurd hc (by simp)
    · intro hc
      exfalso
      have hl : 0 < ((0 : Nat) :: (0 : Nat) :: rest).length - 1 := by
        simp
      exact hc 0 hl rfl ⟨by simp, by simp⟩
  | case2 a b rest h ih =>
    simp only [findNulUnit, if_neg h, Option.map_eq_none']
    rw [ih]
    constructor
    · intro hn j hj hje
      cases j with
      | zero =>
        rintro ⟨hc1, hc2⟩
        simp only [List.getElem?_cons_zero, Option.some.injEq] at hc1
        simp only [List.getElem?_cons_succ, List.getElem?_cons_zero, Option.some.injEq] at hc2
        exact h ⟨hc1, hc2⟩
      | succ j' =>
        cases j' with
        | zero => exact absurd hje (by decide)
        | succ j'' =>
          have hlen : j'' < rest.length - 1 := by
            simp only [List.length_cons] at hj
            omega
          have := hn j'' hlen (by omega)
          rw [show j'' + 1 + 1 = j'' + 2 from rfl, getElem?_cons_two,
            show j'' + 2 + 1 = j'' + 1 + 2 from rfl, getElem?_cons_two]
          exact this
    · intro hn j hj hje
      have hlen : j + 2 < (a :: b :: rest).length - 1 := by
        simp only [List.length_cons]
        simp only [List.length_cons] at *
        omega
      have := hn (j + 2) hlen (by omega)
      rw [getElem?_cons_two, show j + 2 + 1 = j + 1 + 2 from rfl, getElem?_cons_two] at this
      exact this
  | case3 t ht =>
    have hnone : findNulUnit t = none := by
      cases t with
      | nil => rfl
      | cons x xs =>
        cases xs with
        | nil => rfl
        | cons y ys => exact absurd rfl (fun hh => ht x y ys hh)
    rw [hnone]
    have hlen : t.length ≤ 1 := by
      cases t with
      | nil => simp
      | cons x xs =>
        cases xs with
        | nil => simp
        | cons y ys => exact absurd rfl (fun hh => ht x y ys hh)
    simp only [true_iff]
    intro j hj hje
    exfalso
    omega

theorem findNul_lt_length {bs : List Nat} {m : Nat} (h : findNul bs = some m) :
    m < bs.length :=
  lt_length_of_getElem?_eq_some ((findNul_some_iff bs m).mp h).1

theorem findNulUnit_succ_lt_length {bs : List Nat} {k : Nat} (h : findNulUnit bs = some k) :
    k + 1 < bs.length :=
  lt_length_of_getElem?_eq_some ((findNulUnit_some_iff bs k).mp h).2.2.1

theorem unpack_string_fst_le (bs : List Nat) : (unpack_string bs).1 ≤ bs.length := by
  unfold unpack_string
  cases h : findNul bs with
  | none => simp
  | some m =>
    simp only
    exact findNul_lt_length h

theorem unpack_string_eq_of_findNul_some {bs : List Nat} {m : Nat} (h : findNul bs = some m) :
    unpack_string bs = (m + 1, bs.take m) := by
  simp [unpack_string, h]

theorem unpack_string_set_stable (t : List Nat) (v : Nat) :
    unpack_string (t.set (unpack_string t).1 v) = unpack_string t := by
  cases h : findNul t with
  | none =>
    have h1 : (unpack_string t).1 = t.length := by simp [unpack_string, h]
    rw [h1, List.set_eq_of_length_le (le_refl _)]
  | some m =>
    have h1 : (unpack_string t).1 = m + 1 := by simp [unpack_string, h]
    rw [h1]
    obtain ⟨e1, e2⟩ := (findNul_some_iff t m).mp h
    have hset : findNul (t.set (m + 1) v) = some m := by
      apply (findNul_some_iff _ m).mpr
      constructor
      · rw [List.getElem?_set_ne (by omega)]
        exact e1
      · intro j hj
        rw [List.getElem?_set_ne (by omega)]
        exact e2 j hj
    rw [unpack_string_eq_of_findNul_some hset, unpack_string_eq_of_findNul_some h,
      List.take_set_of_lt _ _ (Nat.lt_succ_self m)]

/-- For size bytes at most 127, signed unpacking agrees with the byte
value and the size loop computes the big-endian base-128 sum. -/
theorem sizeLoop_le_127 (b0 b1 b2 b3 : Nat) (h0 : b0 ≤ 127) (h1 : b1 ≤ 127)
    (h2 : b2 ≤ 127) (h3 : b3 ≤ 127) :
    sizeLoop 0 [sbyte b0, sbyte b1, sbyte b2, sbyte b3] =
      some ((b0 * 128 ^ 3 + b1 * 128 ^ 2 + b2 * 128 + b3 : Nat) : Int) := by
  have s0 : sbyte b0 = (b0 : Int) := by unfold sbyte; rw [if_pos (by omega)]
  have s1 : sbyte b1 = (b1 : Int) := by unfold sbyte; rw [if_pos (by omega)]
  have s2 : sbyte b2 = (b2 : Int) := by unfold sbyte; rw [if_pos (by omega)]
  have s3 : sbyte b3 = (b3 : Int) := by unfold sbyte; rw [if_pos (by omega)]
  have n0 : ¬((b0 : Int) > 127) := by omega
  have n1 : ¬((b1 : Int) > 127) := by omega
  have n2 : ¬((b2 : Int) > 127) := by omega
  have n3 : ¬((b3 : Int) > 127) := by omega
  rw [s0, s1, s2, s3]
  simp only [sizeLoop, if_neg n0, if_neg n1, if_neg n2, if_neg n3, Option.some.injEq]
  push_cast
  ring

/-- C1: for the claim's positive half, four size bytes that are each at
most 127 decode to the base-128 big-endian sum (shown here at bytes
1,2,3,4 and by `sizeLoop_le_127` in general); for its negative half, a
size byte of 128 is unpacked as the signed value -128, the
greater-than-127 guard never fires, so no "Invalid ID3v2 size byte"
diagnostic is printed and the parse is not aborted: instead the header
event fires with the bogus negative size -268435456. -/
theorem c1_size_byte_over_127_not_rejected :
    parse_id3v2_file "song.mp3" (strBytes "ID3" ++ [3, 0, 0, 128, 0, 0, 0]) =
      .ok [.on_path "song.mp3",
           .on_raw_id3v2_header [73, 68, 51, 3, 0, 0, 128, 0, 0, 0],
           .on_id3v2_header 3 0 0 (-268435456)] () ∧
    (∀ e : Event, e ∈ (parse_id3v2_file "song.mp3"
        (strBytes "ID3" ++ [3, 0, 0, 128, 0, 0, 0])).events →
      e ≠ .print_error "Invalid ID3v2 size byte") ∧
    sizeLoop 0 [sbyte 1, sbyte 2, sbyte 3, sbyte 4] =
      some (1 * 128 ^ 3 + 2 * 128 ^ 2 + 3 * 128 + 4) := by
  refine ⟨by decide, ?_, by decide⟩
  decide

/-- C2: on a file whose tag header is valid except that the major version
is 2, the path, raw-header and parsed-header events fire and no frame is
read, but the parser then calls the nonexistent method `print_error`
(the actual method is the name-mangled `__print_error`), so it raises
`AttributeError` rather than reporting a diagnostic and returning
normally; the exception propagates to the caller that iterates files. -/
theorem c2_version_not_3_raises_attribute_error :
    parse_id3v2_file "song.mp3" (strBytes "ID3" ++ [2, 0, 0, 0, 0, 0, 10]) =
      .exn [.on_path "song.mp3",
            .on_raw_id3v2_header [73, 68, 51, 2, 0, 0, 0, 0, 0, 10],
            .on_id3v2_header 2 0 0 10] .attributeError ∧
    readsNoFrames (parse_id3v2_file "song.mp3" (strBytes "ID3" ++ [2, 0, 0, 0, 0, 0, 10])) := by
  constructor
  · decide
  · unfold readsNoFrames
    exact ⟨by decide, by decide⟩

/-- C5 counterexample: a text frame with encoding 0 and body "Rock"
decodes to exactly "Rock", but the same content re-encoded with encoding
1 as UTF-16LE code units followed by a 0x0000 terminator decodes to
"Rock" followed by a NUL code point — the terminator is decoded into the
string, so the two decoded strings are not equal, contrary to the claim. -/
theorem c5_terminator_retained_counterexample :
    parse_text_info_frame (0 :: strBytes "Rock") =
      .ok [] [("frame_string", .pstr [82, 111, 99, 107])] ∧
    parse_text_info_frame [1, 82, 0, 111, 0, 99, 0, 107, 0, 0, 0] =
      .ok [] [("frame_string", .puni [82, 111, 99, 107, 0])] ∧
    ([82, 111, 99, 107, 0] : List Nat) ≠ [82, 111, 99, 107] := by
  refine ⟨by decide, by decide, by decide⟩

/-- C5 amended: the encoding-0 frame body "Rock" decodes to exactly
"Rock"; the encoding-1 body holding the UTF-16LE code units of "Rock"
with no terminator decodes to the identical string "Rock"; appending the
0x0000 terminator to the encoding-1 body instead yields "Rock" plus one
trailing NUL code point (the terminator is decoded, not stripped). -/
theorem c5_rock_decodes :
    parse_text_info_frame (0 :: strBytes "Rock") =
      .ok [] [("frame_string", .pstr (strBytes "Rock"))] ∧
    parse_text_info_frame [1, 82, 0, 111, 0, 99, 0, 107, 0] =
      .ok [] [("frame_string", .puni (strBytes "Rock"))] ∧
    parse_text_info_frame [1, 82, 0, 111, 0, 99, 0, 107, 0, 0, 0] =
      .ok [] [("frame_string", .puni (strBytes "Rock" ++ [0]))] := by
  refine ⟨by decide, by decide, by decide⟩


/-- C6: the two-byte-unit extractor scans in aligned 2-byte steps: when
the first aligned 0x0000 unit sits after `k` content bytes and those `k`
bytes utf-16-decode to `s`, it returns `k + 2` bytes consumed and `s`;
when no aligned terminator fits before the buffer ends it consumes the
whole buffer length and returns the empty string, raising no error. -/
theorem c6_unpack_unicode_scan :
    ∀ bs : List Nat,
      (∀ k s, firstNulUnitAt bs k → utf16_decode (bs.take k) = some s →
        unpack_unicode bs = some (k + 2, s)) ∧
      (noNulUnit bs → unpack_unicode bs = some (bs.length, [])) := by
  intro bs
  constructor
  · intro k s h1 h2
    have hk := (findNulUnit_some_iff bs k).mpr h1
    simp [unpack_unicode, hk, h2]
  · intro h
    have hk := (findNulUnit_none_iff bs).mpr h
    simp [unpack_unicode, hk]

/-- Witness for C6 at two concrete buffers: terminator after two content
bytes, and a two-byte buffer with no terminator. -/
theorem c6_unpack_unicode_scan_witness :
    (firstNulUnitAt [65, 0, 0, 0] 2 ∧ utf16_decode ([65, 0, 0, 0].take 2) = some [65] ∧
      unpack_unicode [65, 0, 0, 0] = some (2 + 2, [65])) ∧
    (noNulUnit [1, 0] ∧ unpack_unicode [1, 0] = some (([1, 0] : List Nat).length, [])) :=
  ⟨⟨by decide, by decide,
      (c6_unpack_unicode_scan [65, 0, 0, 0]).1 2 [65] (by decide) (by decide)⟩,
   ⟨by decide, (c6_unpack_unicode_scan [1, 0]).2 (by decide)⟩⟩

/-- C9: both extractors report a consumed-byte count that never exceeds
the buffer length: `unpack_string` returns either the index of the first
nul byte plus 1 or the whole length, and `unpack_unicode`, whenever it
returns, returns either an aligned terminator offset plus 2 or the whole
length. -/
theorem c9_consumed_bounds :
    ∀ bs : List Nat,
      ((unpack_string bs).1 ≤ bs.length ∧
        ((∃ i, firstZeroAt bs i ∧ (unpack_string bs).1 = i + 1) ∨
          (noZero bs ∧ (unpack_string bs).1 = bs.length))) ∧
      (∀ n s, unpack_unicode bs = some (n, s) →
        n ≤ bs.length ∧
          ((∃ k, firstNulUnitAt bs k ∧ n = k + 2) ∨ (noNulUnit bs ∧ n = bs.length))) := by
  intro bs
  constructor
  · refine ⟨unpack_string_fst_le bs, ?_⟩
    cases h : findNul bs with
    | some m => exact Or.inl ⟨m, (findNul_some_iff bs m).mp h, by simp [unpack_string, h]⟩
    | none => exact Or.inr ⟨(findNul_none_iff bs).mp h, by simp [unpack_string, h]⟩
  · intro n s hn
    cases h : findNulUnit bs with
    | some k =>
      have hk1 : k + 1 < bs.length := findNulUnit_succ_lt_length h
      simp only [unpack_unicode, h, Option.map_eq_some'] at hn
      obtain ⟨a, _, hpair⟩ := hn
      have h1 : k + 2 = n := congrArg Prod.fst hpair
      refine ⟨by omega, Or.inl ⟨k, (findNulUnit_some_iff bs k).mp h, by omega⟩⟩
    | none =>
      simp only [unpack_unicode, h, Option.some.injEq, Prod.mk.injEq] at hn
      refine ⟨by omega, Or.inr ⟨(findNulUnit_none_iff bs).mp h, by omega⟩⟩

/-- Witness for C9 at two concrete buffers. -/
theorem c9_consumed_bounds_witness :
    ((unpack_string [77, 0, 5]).1 ≤ ([77, 0, 5] : List Nat).length ∧
      ((∃ i, firstZeroAt [77, 0, 5] i ∧ (unpack_string [77, 0, 5]).1 = i + 1) ∨
        (noZero [77, 0, 5] ∧ (unpack_string [77, 0, 5]).1 = ([77, 0, 5] : List Nat).length))) ∧
    (2 ≤ ([1, 0] : List Nat).length ∧
      ((∃ k, firstNulUnitAt [1, 0] k ∧ 2 = k + 2) ∨
        (noNulUnit [1, 0] ∧ 2 = ([1, 0] : List Nat).length))) :=
  ⟨(c9_consumed_bounds [77, 0, 5]).1, (c9_consumed_bounds [1, 0]).2 2 [] (by decide)⟩

theorem step_halt_extent {data : List Nat} {pos : Nat} {extent : Int}
    (h : (pos : Int) + 10 ≥ extent) :
    parse_id3v2dot3_frame data pos extent = .ok [] (false, pos) := by
  unfold parse_id3v2dot3_frame
  rw [if_pos h]

theorem step_halt_zero_type {data : List Nat} {pos : Nat} {extent : Int}
    (hlen : ((data.drop pos).take 10).length = 10)
    (htype : ((data.drop pos).take 10).take 4 = [0, 0, 0, 0]) :
    parse_id3v2dot3_frame data pos extent = .ok [] (false, pos) ∨
    parse_id3v2dot3_frame data pos extent =
      .ok [.on_raw_id3v2dot3_frame_header ((data.drop pos).take 10)]
        (false, min (pos + 10) data.length) := by
  by_cases hext : (pos : Int) + 10 ≥ extent
  · exact Or.inl (step_halt_extent hext)
  · right
    unfold parse_id3v2dot3_frame
    rw [if_neg hext, if_neg (fun hc => hc hlen), if_pos htype]

theorem step_halt_zero_size {data : List Nat} {pos : Nat} {extent : Int}
    (hlen : ((data.drop pos).take 10).length = 10)
    (hsize : be_bytes ((((data.drop pos).take 10).drop 4).take 4) = 0) :
    parse_id3v2dot3_frame data pos extent = .ok [] (false, pos) ∨
    parse_id3v2dot3_frame data pos extent =
      .ok [.on_raw_id3v2dot3_frame_header ((data.drop pos).take 10)]
        (false, min (pos + 10) data.length) := by
  by_cases hext : (pos : Int) + 10 ≥ extent
  · exact Or.inl (step_halt_extent hext)
  · right
    by_cases htype : ((data.drop pos).take 10).take 4 = [0, 0, 0, 0]
    · unfold parse_id3v2dot3_frame
      rw [if_neg hext, if_neg (fun hc => hc hlen), if_pos htype]
    · unfold parse_id3v2dot3_frame
      rw [if_neg hext, if_neg (fun hc => hc hlen), if_neg htype, if_pos hsize]

theorem frame_loop_of_halt {data : List Nat} {extent : Int} {pos p' : Nat} {evs : List Event}
    (h : parse_id3v2dot3_frame data pos extent = .ok evs (false, p')) :
    ∀ fuel, frame_loop data extent fuel pos = .ok [] () ∨
      frame_loop data extent fuel pos = .ok evs () := by
  intro fuel
  cases fuel with
  | zero => exact Or.inl rfl
  | succ n =>
    right
    simp [frame_loop, h]

/-- C4: frame iteration halts, reading no frame, under each of its three
stop conditions independently: the next header would cross the tag
extent (offset + 10 at or past `extent`), the 4-byte type field of the
header read at the current offset is all zero bytes, or the declared
frame size in that header is zero.  In each case the loop emits no
parsed-frame-header event and no frame-body event, whatever fuel it is
given. -/
theorem c4_stop_conditions :
    ∀ (data : List Nat) (extent : Int) (pos fuel : Nat),
      ((pos : Int) + 10 ≥ extent →
        readsNoFrames (frame_loop data extent fuel pos)) ∧
      (((data.drop pos).take 10).length = 10 →
        ((data.drop pos).take 10).take 4 = [0, 0, 0, 0] →
        readsNoFrames (frame_loop data extent fuel pos)) ∧
      (((data.drop pos).take 10).length = 10 →
        be_bytes ((((data.drop pos).take 10).drop 4).take 4) = 0 →
        readsNoFrames (frame_loop data extent fuel pos)) := by
  intro data extent pos fuel
  refine ⟨?_, ?_, ?_⟩
  · intro h
    rcases frame_loop_of_halt (@step_halt_extent data pos extent h) fuel with h' | h' <;>
      simp [readsNoFrames, h', PRes.events]
  · intro hlen htype
    rcases @step_halt_zero_type data pos extent hlen htype with hs | hs <;>
      rcases frame_loop_of_halt hs fuel with h' | h' <;>
        simp [readsNoFrames, h', PRes.events, List.countP_cons, isFrameHeaderEvent,
          isRawFrameEvent]
  · intro hlen hsize
    rcases @step_halt_zero_size data pos extent hlen hsize with hs | hs <;>
      rcases frame_loop_of_halt hs fuel with h' | h' <;>
        simp [readsNoFrames, h', PRes.events, List.countP_cons, isFrameHeaderEvent,
          isRawFrameEvent]

/-- Witness for C4 at three minimal buffers, one per stop condition:
an empty file with the next header past the extent, a padding header of
ten zero bytes, and a header with type "AAAA" and declared size zero. -/
theorem c4_stop_conditions_witness :
    readsNoFrames (frame_loop [] 5 3 0) ∧
    readsNoFrames (frame_loop (List.replicate 10 0) 100 3 0) ∧
    readsNoFrames (frame_loop [65, 65, 65, 65, 0, 0, 0, 0, 0, 0] 100 3 0) :=
  ⟨(c4_stop_conditions [] 5 0 3).1 (by decide),
   (c4_stop_conditions (List.replicate 10 0) 100 0 3).2.1 (by decide) (by decide),
   (c4_stop_conditions [65, 65, 65, 65, 0, 0, 0, 0, 0, 0] 100 0 3).2.2 (by decide) (by decide)⟩

theorem frame_data_unknown {t : List Nat} (h : t ∉ knownFrameTypes) (d : List Nat) :
    parse_id3v2dot3_frame_data t d = .ok [.print_error "Do not know frame type"] () := by
  simp only [knownFrameTypes, List.mem_cons, List.not_mem_nil, or_false, not_or] at h
  obtain ⟨h1, h2, h3, h4, h5, h6, h7, h8, h9, h10, h11, h12, h13, h14, h15, h16, h17, h18,
    h19, h20, h21, h22, h23, h24, h25⟩ := h
  unfold parse_id3v2dot3_frame_data
  rw [if_neg h1, if_neg h2, if_neg h3, if_neg h4, if_neg h5, if_neg h6, if_neg h7, if_neg h8,
    if_neg h9, if_neg h10, if_neg h11, if_neg h12, if_neg h13, if_neg h14, if_neg h15,
    if_neg h16, if_neg h17, if_neg h18, if_neg h19, if_neg h20, if_neg h21, if_neg h22,
    if_neg h23, if_neg h24, if_neg h25]

/-- C8: a frame whose 4-character type code is outside the 24-entry
dispatch registry (and which is a real frame: nonzero type field, nonzero
declared size, body fully available) produces exactly one
unknown-frame-type diagnostic and exactly one raw-bytes event carrying
the declared-length body, produces no structured record event, and the
step reports `true` so iteration continues at the next frame. -/
theorem c8_unknown_frame_type :
    ∀ (data : List Nat) (pos : Nat) (extent : Int) (hdr t : List Nat) (s fl : Nat)
      (body : List Nat),
      hdr = (data.drop pos).take 10 →
      (pos : Int) + 10 < extent →
      hdr.length = 10 →
      t = hdr.take 4 →
      t ∉ knownFrameTypes →
      t ≠ [0, 0, 0, 0] →
      s = be_bytes ((hdr.drop 4).take 4) →
      s ≠ 0 →
      fl = be_bytes (hdr.drop 8) →
      body = (data.drop (pos + 10)).take s →
      pos + 10 + s ≤ data.length →
      parse_id3v2dot3_frame data pos extent =
        .ok [.on_raw_id3v2dot3_frame_header hdr, .on_id3v2dot3_frame_header t s fl,
             .on_raw_id3v2dot3_frame t body, .print_error "Do not know frame type"]
          (true, pos + 10 + s) ∧
      body.length = s ∧
      (parse_id3v2dot3_frame data pos extent).events.countP isUnknownTypeDiag = 1 ∧
      (parse_id3v2dot3_frame data pos extent).events.countP isRawFrameEvent = 1 ∧
      (parse_id3v2dot3_frame data pos extent).events.countP isRecordEvent = 0 := by
  intro data pos extent hdr t s fl body h1 h2 h3 h4 h5 h6 h7 h8 h9 h10 h11
  subst h1
  subst h4
  subst h7
  subst h9
  subst h10
  have hlen : pos + 10 ≤ data.length := by
    have hl := h3
    rw [List.length_take, List.length_drop] at hl
    have h10 : 10 ≤ data.length - pos := min_eq_left_iff.mp hl
    omega
  have hmin1 : min (pos + 10) data.length = pos + 10 := Nat.min_eq_left hlen
  have hne10 : ¬(((data.drop pos).take 10).length ≠ 10) := fun hc => hc h3
  have hmain : parse_id3v2dot3_frame data pos extent =
      .ok [.on_raw_id3v2dot3_frame_header ((data.drop pos).take 10),
           .on_id3v2dot3_frame_header (((data.drop pos).take 10).take 4)
             (be_bytes ((((data.drop pos).take 10).drop 4).take 4))
             (be_bytes (((data.drop pos).take 10).drop 8)),
           .on_raw_id3v2dot3_frame (((data.drop pos).take 10).take 4)
             ((data.drop (pos + 10)).take (be_bytes ((((data.drop pos).take 10).drop 4).take 4))),
           .print_error "Do not know frame type"]
        (true, pos + 10 + be_bytes ((((data.drop pos).take 10).drop 4).take 4)) := by
    simp only [parse_id3v2dot3_frame, if_neg (not_le.mpr h2), if_neg hne10,
      if_neg h6, if_neg h8, hmin1, frame_data_unknown h5, PRes.withEvents, PRes.map,
      Nat.min_eq_left h11]
    simp
  refine ⟨hmain, ?_, ?_, ?_, ?_⟩
  · rw [List.length_take, List.length_drop]
    omega
  · rw [hmain]
    simp [PRes.events, List.countP_cons, isUnknownTypeDiag, isRawFrameEvent, isRecordEvent]
  · rw [hmain]
    simp [PRes.events, List.countP_cons, isUnknownTypeDiag, isRawFrameEvent, isRecordEvent]
  · rw [hmain]
    simp [PRes.events, List.countP_cons, isUnknownTypeDiag, isRawFrameEvent, isRecordEvent]

/-- Witness for C8: the unknown type "ZZZZ" with declared size 5 on a
minimal buffer, as in the spec's example. -/
theorem c8_unknown_frame_type_witness :
    parse_id3v2dot3_frame (strBytes "ZZZZ" ++ [0, 0, 0, 5, 0, 0] ++ [1, 2, 3, 4, 5]) 0 100 =
      .ok [.on_raw_id3v2dot3_frame_header (strBytes "ZZZZ" ++ [0, 0, 0, 5, 0, 0]),
           .on_id3v2dot3_frame_header (strBytes "ZZZZ") 5 0,
           .on_raw_id3v2dot3_frame (strBytes "ZZZZ") [1, 2, 3, 4, 5],
           .print_error "Do not know frame type"]
        (true, 0 + 10 + 5) ∧
    ([1, 2, 3, 4, 5] : List Nat).length = 5 ∧
    (parse_id3v2dot3_frame (strBytes "ZZZZ" ++ [0, 0, 0, 5, 0, 0] ++ [1, 2, 3, 4, 5])
        0 100).events.countP isUnknownTypeDiag = 1 ∧
    (parse_id3v2dot3_frame (strBytes "ZZZZ" ++ [0, 0, 0, 5, 0, 0] ++ [1, 2, 3, 4, 5])
        0 100).events.countP isRawFrameEvent = 1 ∧
    (parse_id3v2dot3_frame (strBytes "ZZZZ" ++ [0, 0, 0, 5, 0, 0] ++ [1, 2, 3, 4, 5])
        0 100).events.countP isRecordEvent = 0 := by
  have h := c8_unknown_frame_type (strBytes "ZZZZ" ++ [0, 0, 0, 5, 0, 0] ++ [1, 2, 3, 4, 5])
    0 100 (strBytes "ZZZZ" ++ [0, 0, 0, 5, 0, 0]) (strBytes "ZZZZ") 5 0 [1, 2, 3, 4, 5]
    (by decide) (by decide) (by decide) (by decide) (by decide) (by decide) (by decide)
    (by decide) (by decide) (by decide) (by decide)
  exact h

/-- C3 counterexample: a text-information frame ("TIT2") whose body has
encoding byte 2 aborts body decoding with the unsupported-encoding
diagnostic, yet the structured record event `on_id3v2dot3_frame` still
fires, carrying the empty record — so it is not true that no structured
record event is produced for the frame. -/
theorem c3_record_event_counterexample :
    parse_id3v2dot3_frame_data (strBytes "TIT2") [2, 65] =
      .ok [.print_error "Unknown frame encoding",
           .on_id3v2dot3_frame (strBytes "TIT2") []] () ∧
    (parse_id3v2dot3_frame_data (strBytes "TIT2") [2, 65]).events.countP isRecordEvent = 1 :=
  ⟨by decide, by decide⟩

theorem frame_data_text_info {t : List Nat} (h : t ∈ textInfoTypes) (d : List Nat) :
    parse_id3v2dot3_frame_data t d = emit_frame_record t (parse_text_info_frame d) := by
  simp only [textInfoTypes, List.mem_cons, List.not_mem_nil, or_false] at h
  rcases h with rfl | rfl | rfl | rfl | rfl | rfl | rfl | rfl | rfl | rfl | rfl | rfl | rfl |
    rfl | rfl | rfl | rfl | rfl | rfl <;> rfl

/-- C3 amended: for every encoding-selecting frame shape, a body whose
encoding byte is neither 0 nor 1 aborts body decoding with the
unsupported-encoding diagnostic and yields the empty record, which for a
dispatched frame is still delivered through the structured-record event;
the walker's step keeps iterating (returns `true`) rather than aborting
the file, shown for a text-information frame at the walker level. -/
theorem c3_bad_encoding_empty_record :
    (∀ t d e, t ∈ textInfoTypes → d[0]? = some e → e ≠ 0 → e ≠ 1 →
      parse_id3v2dot3_frame_data t d =
        .ok [.print_error "Unknown frame encoding",
             .on_id3v2dot3_frame t []] ()) ∧
    (∀ (d : List Nat) (b : Nat), d[0]? = some b → b < 256 → b ≠ 0 → b ≠ 1 → 4 ≤ d.length →
      parse_comm_frame d = .ok [.print_error "Unknown frame encoding"] []) ∧
    (∀ (d : List Nat) (b : Nat), d[0]? = some b → b < 256 → b ≠ 0 → b ≠ 1 → 4 ≤ d.length →
      parse_uslt_frame d = .ok [.print_error "Unknown frame encoding"] []) ∧
    (∀ d e pt, d[0]? = some e → e ≠ 0 → e ≠ 1 →
      d[1 + (unpack_string (d.drop 1)).1]? = some pt →
      parse_apic_frame d = .ok [.print_error "Unknown frame encoding"] []) ∧
    (∀ d e, d[0]? = some e → e ≠ 0 → e ≠ 1 →
      parse_geob_frame d = .ok [.print_error "Unknown frame encoding"] []) ∧
    (∀ (data : List Nat) (pos : Nat) (extent : Int) (hdr t : List Nat) (s : Nat)
        (evs : List Event),
      hdr = (data.drop pos).take 10 →
      (pos : Int) + 10 < extent →
      hdr.length = 10 →
      t = hdr.take 4 →
      t ≠ [0, 0, 0, 0] →
      s = be_bytes ((hdr.drop 4).take 4) →
      s ≠ 0 →
      parse_id3v2dot3_frame_data t ((data.drop (min (pos + 10) data.length)).take s) =
        .ok evs () →
      parse_id3v2dot3_frame data pos extent =
        .ok ([.on_raw_id3v2dot3_frame_header hdr,
              .on_id3v2dot3_frame_header t s (be_bytes (hdr.drop 8)),
              .on_raw_id3v2dot3_frame t
                ((data.drop (min (pos + 10) data.length)).take s)] ++ evs)
          (true, min (min (pos + 10) data.length + s) data.length)) := by
  refine ⟨?_, ?_, ?_, ?_, ?_, ?_⟩
  · intro t d e ht h0 he0 he1
    rw [frame_data_text_info ht]
    have htext : parse_text_info_frame d = .ok [.print_error "Unknown frame encoding"] [] := by
      simp only [parse_text_info_frame, h0, if_neg he0, if_neg he1]
    rw [htext]
    rfl
  · intro d b h0 hlt hb0 hb1 hlen
    have hg : d.getD 0 0 = b := by rw [List.getD_eq_getElem?_getD, h0]; rfl
    have hs0 : sbyte b ≠ 0 := by unfold sbyte; split <;> omega
    have hs1 : sbyte b ≠ 1 := by unfold sbyte; split <;> omega
    simp only [parse_comm_frame, hg, if_neg (show ¬(d.length < 4) from by omega),
      if_neg hs0, if_neg hs1]
  · intro d b h0 hlt hb0 hb1 hlen
    have hg : d.getD 0 0 = b := by rw [List.getD_eq_getElem?_getD, h0]; rfl
    have hs0 : sbyte b ≠ 0 := by unfold sbyte; split <;> omega
    have hs1 : sbyte b ≠ 1 := by unfold sbyte; split <;> omega
    simp only [parse_uslt_frame, hg, if_neg (show ¬(d.length < 4) from by omega),
      if_neg hs0, if_neg hs1]
  · intro d e pt h0 he0 he1 hpt
    simp only [parse_apic_frame, h0, hpt, if_neg he0, if_neg he1]
  · intro d e h0 he0 he1
    simp only [parse_geob_frame, h0, if_neg he0, if_neg he1]
  · intro data pos extent hdr t s evs h1 h2 h3 h4 h5 h6 h7 h8
    subst h1
    subst h4
    subst h6
    have hne10 : ¬(((data.drop pos).take 10).length ≠ 10) := fun hc => hc h3
    simp only [parse_id3v2dot3_frame, if_neg (not_le.mpr h2), if_neg hne10, if_neg h5,
      if_neg h7, h8, PRes.withEvents, PRes.map]
    simp

/-- Witness for C3 (amended) at concrete bodies with encoding byte 2 for
each of the five encoding-selecting shapes, plus a full walker step over
a bad-encoding "TIT2" frame that keeps iterating. -/
theorem c3_bad_encoding_empty_record_witness :
    parse_id3v2dot3_frame_data (strBytes "TIT2") [2, 66] =
      .ok [.print_error "Unknown frame encoding",
           .on_id3v2dot3_frame (strBytes "TIT2") []] () ∧
    parse_comm_frame [2, 101, 110, 103, 0] = .ok [.print_error "Unknown frame encoding"] [] ∧
    parse_uslt_frame [2, 101, 110, 103, 0] = .ok [.print_error "Unknown frame encoding"] [] ∧
    parse_apic_frame [2, 0, 7] = .ok [.print_error "Unknown frame encoding"] [] ∧
    parse_geob_frame [2] = .ok [.print_error "Unknown frame encoding"] [] ∧
    parse_id3v2dot3_frame (strBytes "TIT2" ++ [0, 0, 0, 2, 0, 0] ++ [2, 65]) 0 100 =
      .ok [.on_raw_id3v2dot3_frame_header (strBytes "TIT2" ++ [0, 0, 0, 2, 0, 0]),
           .on_id3v2dot3_frame_header (strBytes "TIT2") 2 0,
           .on_raw_id3v2dot3_frame (strBytes "TIT2") [2, 65],
           .print_error "Unknown frame encoding",
           .on_id3v2dot3_frame (strBytes "TIT2") []] (true, 12) := by
  have h := c3_bad_encoding_empty_record
  refine ⟨h.1 (strBytes "TIT2") [2, 66] 2 (by decide) (by decide) (by decide) (by decide),
    h.2.1 [2, 101, 110, 103, 0] 2 (by decide) (by decide) (by decide) (by decide) (by decide),
    h.2.2.1 [2, 101, 110, 103, 0] 2 (by decide) (by decide) (by decide) (by decide) (by decide),
    h.2.2.2.1 [2, 0, 7] 2 7 (by decide) (by decide) (by decide) (by decide),
    h.2.2.2.2.1 [2] 2 (by decide) (by decide) (by decide), ?_⟩
  have hw := h.2.2.2.2.2 (strBytes "TIT2" ++ [0, 0, 0, 2, 0, 0] ++ [2, 65]) 0 100
    (strBytes "TIT2" ++ [0, 0, 0, 2, 0, 0]) (strBytes "TIT2") 2
    [.print_error "Unknown frame encoding", .on_id3v2dot3_frame (strBytes "TIT2") []]
    (by decide) (by decide) (by decide) (by decide) (by decide) (by decide) (by decide)
    (by decide)
  exact hw.trans (by decide)

/-- C7: for a well-formed APIC frame body (encoding 0 or 1, nul-terminated
MIME string of `m` content bytes, picture-type byte, terminator-delimited
description of `c` content bytes, remainder payload) whose length equals
the declared frame size, the decoded payload length equals
frameSize - (1 + m + 1 + 1 + c + t) with t = 1 terminator byte for
encoding 0 and t = 2 for encoding 1. -/
theorem c7_apic_payload_length :
    ∀ (d : List Nat) (fsize m c : Nat),
      d.length = fsize →
      findNul (d.drop 1) = some m →
      (d[0]? = some 0 → findNul (d.drop (m + 3)) = some c →
        ∃ pd, parse_apic_frame d =
            .ok [] [("mime_type", .pstr ((d.drop 1).take m)),
                    ("description_string", .pstr ((d.drop (m + 3)).take c)),
                    ("picture_data", .pbytes pd)] ∧
          pd.length = fsize - (1 + m + 1 + 1 + c + 1)) ∧
      (∀ s, d[0]? = some 1 → findNulUnit (d.drop (m + 3)) = some c →
        utf16_decode ((d.drop (m + 3)).take c) = some s →
        ∃ pd, parse_apic_frame d =
            .ok [] [("mime_type", .pstr ((d.drop 1).take m)),
                    ("description_string", .puni s),
                    ("picture_data", .pbytes pd)] ∧
          pd.length = fsize - (1 + m + 1 + 1 + c + 2)) := by
  intro d fsize m c hflen hm
  have hms : unpack_string (d.drop 1) = (m + 1, (d.drop 1).take m) :=
    unpack_string_eq_of_findNul_some hm
  constructor
  · intro h0 hc
    have hcm : c < (d.drop (m + 3)).length := findNul_lt_length hc
    rw [List.length_drop] at hcm
    have hptlt : m + 2 < d.length := by omega
    obtain ⟨pt, hpt⟩ := exists_getElem?_eq_some hptlt
    have hds : unpack_string (d.drop (m + 3)) = (c + 1, (d.drop (m + 3)).take c) :=
      unpack_string_eq_of_findNul_some hc
    refine ⟨d.drop (m + c + 4), ?_, ?_⟩
    · simp only [parse_apic_frame, h0, hms]
      rw [show 1 + (m + 1) = m + 2 from by omega, hpt,
        show 2 + (m + 1) = m + 3 from by omega, hds,
        show m + 3 + (c + 1) = m + c + 4 from by omega]
      simp
    · rw [List.length_drop]
      omega
  · intro s h0 hc hs
    have hcm : c + 1 < (d.drop (m + 3)).length := findNulUnit_succ_lt_length hc
    rw [List.length_drop] at hcm
    have hptlt : m + 2 < d.length := by omega
    obtain ⟨pt, hpt⟩ := exists_getElem?_eq_some hptlt
    have hds : unpack_unicode (d.drop (m + 3)) = some (c + 2, s) := by
      simp [unpack_unicode, hc, hs]
    refine ⟨d.drop (m + c + 5), ?_, ?_⟩
    · simp only [parse_apic_frame, h0, hms]
      rw [show 1 + (m + 1) = m + 2 from by omega, hpt,
        show 2 + (m + 1) = m + 3 from by omega, hds]
      simp [show m + 3 + (c + 2) = m + c + 5 from by omega]
    · rw [List.length_drop]
      omega

/-- Witness for C7: one concrete well-formed APIC body per encoding
(MIME "a", picture type 3, description "d", payload of three bytes). -/
theorem c7_apic_payload_length_witness :
    (∃ pd, parse_apic_frame [0, 97, 0, 3, 100, 0, 9, 9, 9] =
        .ok [] [("mime_type", .pstr (([0, 97, 0, 3, 100, 0, 9, 9, 9].drop 1).take 1)),
                ("description_string", .pstr (([0, 97, 0, 3, 100, 0, 9, 9, 9].drop 4).take 1)),
                ("picture_data", .pbytes pd)] ∧
      pd.length = 9 - (1 + 1 + 1 + 1 + 1 + 1)) ∧
    (∃ pd, parse_apic_frame [1, 97, 0, 3, 100, 0, 0, 0, 9, 9, 9] =
        .ok [] [("mime_type", .pstr (([1, 97, 0, 3, 100, 0, 0, 0, 9, 9, 9].drop 1).take 1)),
                ("description_string", .puni [100]),
                ("picture_data", .pbytes pd)] ∧
      pd.length = 11 - (1 + 1 + 1 + 1 + 2 + 2)) :=
  ⟨(c7_apic_payload_length [0, 97, 0, 3, 100, 0, 9, 9, 9] 9 1 1 (by decide) (by decide)).1
      (by decide) (by decide),
   (c7_apic_payload_length [1, 97, 0, 3, 100, 0, 0, 0, 9, 9, 9] 11 1 2 (by decide)
      (by decide)).2 [100] (by decide) (by decide) (by decide)⟩

/-- C10: an APIC frame body with encoding byte 0 or 1 that decodes to a
record yields exactly the three fields mime_type, description_string and
picture_data, in that order; and the picture-type byte's position is read
but its value is never retained: overwriting that byte with any value
leaves the whole result of `parse_apic_frame` unchanged. -/
theorem c10_apic_record_fields :
    ∀ (d : List Nat) (e : Nat), d[0]? = some e → (e = 0 ∨ e = 1) →
      (∀ evs dict, parse_apic_frame d = .ok evs dict →
        dict.map Prod.fst = ["mime_type", "description_string", "picture_data"]) ∧
      (∀ v, parse_apic_frame (d.set (1 + (unpack_string (d.drop 1)).1) v) =
        parse_apic_frame d) := by
  intro d e h0 he
  constructor
  · intro evs dict hok
    rcases he with rfl | rfl
    · simp only [parse_apic_frame, h0] at hok
      cases hpt : d[1 + (unpack_string (d.drop 1)).1]? with
      | none =>
        rw [hpt] at hok
        exact absurd hok (by simp)
      | some pt =>
        rw [hpt] at hok
        simp only [if_true, PRes.ok.injEq] at hok
        rw [← hok.2]
        simp
    · simp only [parse_apic_frame, h0] at hok
      cases hpt : d[1 + (unpack_string (d.drop 1)).1]? with
      | none =>
        rw [hpt] at hok
        exact absurd hok (by simp)
      | some pt =>
        rw [hpt] at hok
        simp only [if_neg (by decide : ¬(1 = 0)), if_pos rfl] at hok
        cases hu : unpack_unicode (d.drop (2 + (unpack_string (d.drop 1)).1)) with
        | none =>
          rw [hu] at hok
          exact absurd hok (by simp)
        | some ds =>
          rw [hu] at hok
          simp only [if_true, PRes.ok.injEq] at hok
          rw [← hok.2]
          simp
  · intro v
    cases d with
    | nil => rfl
    | cons b t =>
      show parse_apic_frame ((b :: t).set (1 + (unpack_string t).1) v) = parse_apic_frame (b :: t)
      by_cases hu : t.length ≤ (unpack_string t).1
      · rw [List.set_eq_of_length_le (by simp; omega)]
      · push_neg at hu
        have hset : (b :: t).set (1 + (unpack_string t).1) v =
            b :: t.set (unpack_string t).1 v := by
          rw [Nat.add_comm]
          exact List.set_cons_succ b t (unpack_string t).1 v
        rw [hset]
        have hidx : ∀ (x : Nat) (X : List Nat), (b :: X)[1 + x]? = X[x]? := by
          intro x X
          rw [Nat.add_comm]
          exact List.getElem?_cons_succ
        have hdrop2 : ∀ (x : Nat) (X : List Nat), (b :: X).drop (2 + x) = X.drop (1 + x) := by
          intro x X
          rw [show 2 + x = (1 + x) + 1 from by omega]
          exact List.drop_succ_cons
        have hdrop3 : ∀ (x y : Nat) (X : List Nat),
            (b :: X).drop (2 + x + y) = X.drop (1 + x + y) := by
          intro x y X
          rw [show 2 + x + y = (1 + x + y) + 1 from by omega]
          exact List.drop_succ_cons
        have hstab : unpack_string (t.set (unpack_string t).1 v) = unpack_string t :=
          unpack_string_set_stable t v
        have hds2 : (t.set (unpack_string t).1 v).drop (1 + (unpack_string t).1) =
            t.drop (1 + (unpack_string t).1) :=
          List.drop_set_of_lt _ _ (by omega)
        have hds3 : ∀ y, (t.set (unpack_string t).1 v).drop (1 + (unpack_string t).1 + y) =
            t.drop (1 + (unpack_string t).1 + y) := fun y =>
          List.drop_set_of_lt _ _ (by omega)
        obtain ⟨w, hw⟩ := exists_getElem?_eq_some hu
        have hsv : (t.set (unpack_string t).1 v)[(unpack_string t).1]? = some v :=
          List.getElem?_set_self hu
        simp only [parse_apic_frame, List.getElem?_cons_zero, List.drop_one, List.tail_cons]
        rw [hstab]
        simp only [hidx, hdrop2, hdrop3, hds2, hds3, hsv, hw]

/-- Witness for C10 at a concrete encoding-0 APIC body: the record's keys
are exactly the three field names, and overwriting the picture-type byte
(with 77) leaves the parse result unchanged. -/
theorem c10_apic_record_fields_witness :
    ([("mime_type", PVal.pstr [97]), ("description_string", PVal.pstr [100]),
        ("picture_data", PVal.pbytes [9, 9, 9])].map Prod.fst =
      ["mime_type", "description_string", "picture_data"]) ∧
    parse_apic_frame ([0, 97, 0, 3, 100, 0, 9, 9, 9].set
        (1 + (unpack_string ([0, 97, 0, 3, 100, 0, 9, 9, 9].drop 1)).1) 77) =
      parse_apic_frame [0, 97, 0, 3, 100, 0, 9, 9, 9] := by
  have h := c10_apic_record_fields [0, 97, 0, 3, 100, 0, 9, 9, 9] 0 (by decide) (Or.inl rfl)
  exact ⟨h.1 [] [("mime_type", .pstr [97]), ("description_string", .pstr [100]),
      ("picture_data", .pbytes [9, 9, 9])] (by decide), h.2 77⟩
